import Mathlib

/-!
Verification of the provisioning job-submission endpoint and the
Provisioning Worker of the AppLink callout service.

The embedding models the JavaScript sources:
  - the Fastify route registered for POST /provisionServices
    (schema ProvisionServicesRequest, the handler with the Salesforce
    context check, the 201 response and the setImmediate scheduling), and
  - provisionServices.js (the worker: guard on opportunityIds, the
    ProvisioningParameter custom-metadata query, sanitizeSalesforceId,
    the Opportunity query via queryAll with pagination, the nested
    line-item loop with the global service counter, mockProvisionCall,
    the summary, and the callback delivery with its catch blocks).

JavaScript peculiarities are modelled explicitly: values that may be
undefined are Option, string truthiness (the empty string is falsy) is
the function truthyS, and the or-fallback chains (a || b) are jsOr.
-/

namespace ApplinkCallout

/-- A JSON value supplied in a request body position where the code
probes with a typeof check: either a string or some non-string value. -/
inductive JVal where
  | jstr (s : String)
  | jother
deriving DecidableEq

/-- JavaScript truthiness of a possibly-undefined string:
undefined and the empty string are falsy. -/
def truthyS : Option String → Bool
  | some s => s ≠ ""
  | none => false

/-- JavaScript a || b for possibly-undefined strings. -/
def jsOr (a b : Option String) : Option String :=
  if truthyS a then a else b

/-- JavaScript x || d where d is a string literal default. -/
def jsOrDefault (a : Option String) (d : String) : String :=
  match a with
  | some s => if s = "" then d else s
  | none => d

/-- JavaScript String.prototype.trim: drop whitespace from both ends. -/
def jsTrim (s : String) : String :=
  ⟨((s.data.dropWhile Char.isWhitespace).reverse.dropWhile Char.isWhitespace).reverse⟩

/-- sanitizeSalesforceId from provisionServices.js: non-strings map to
null; strings are trimmed and tested against the regular expression
accepting 15 to 18 ASCII alphanumeric characters (the source regex uses
the quantifier from 15 to 18, although its own doc comment says
Salesforce ids are 15 or 18 characters long). -/
def sanitizeSalesforceId : JVal → Option String
  | .jother => none
  | .jstr s =>
    let trimmed := jsTrim s
    if 15 ≤ trimmed.length ∧ trimmed.length ≤ 18 ∧ trimmed.data.all Char.isAlphanum
    then some trimmed else none

/-- The opportunityIdList expression of provisionServices.js:
map over the supplied ids with sanitizeSalesforceId, keep the truthy
results (filter Boolean), quote each id, and join with commas. -/
def buildIdList (ids : List JVal) : String :=
  String.intercalate ","
    ((ids.map sanitizeSalesforceId).filterMap fun o =>
      match o with
      | some s => if s = "" then none else some ("\u0027" ++ s ++ "\u0027")
      | none => none)

/-! ## The submission endpoint -/

/-- The body of a POST /provisionServices request: opportunityIds is
none when the property is absent (or not an array), callbackUrl is
none when absent. -/
structure SubmitRequest where
  opportunityIds : Option (List JVal)
  callbackUrl : Option String
deriving DecidableEq

/-- Fastify validation of the request body against
ProvisionServicesRequestSchema: opportunityIds is required and must be
an array of strings; nothing constrains its length. -/
def validateBody (r : SubmitRequest) : Bool :=
  match r.opportunityIds with
  | none => false
  | some ids => ids.all fun v => match v with | .jstr _ => true | .jother => false

/-- Observable outcome of one request to the endpoint. -/
structure HandlerOutcome where
  status : Nat
  returnedJobId : Option String
  jobIdMinted : Bool
  workerScheduled : Bool
deriving DecidableEq

/-- The POST /provisionServices route: schema validation rejects with
400 before the handler runs; the handler first calls crypto.randomUUID
(minting the job id), then checks the Salesforce context (401 when
absent), then replies 201 with the job id and schedules the worker with
setImmediate. randomUUID is abstracted by the jobId argument. -/
def handleProvisionServices (jobId : String) (r : SubmitRequest)
    (hasSfContext : Bool) : HandlerOutcome :=
  if validateBody r = false then
    { status := 400, returnedJobId := none, jobIdMinted := false, workerScheduled := false }
  else
    if hasSfContext = false then
      { status := 401, returnedJobId := none, jobIdMinted := true, workerScheduled := false }
    else
      { status := 201, returnedJobId := some jobId, jobIdMinted := true, workerScheduled := true }

/-! ## The Provisioning Worker data model -/

/-- One record returned by the ProvisioningParameter custom-metadata
query: Name and Value fields, each possibly undefined. -/
structure ParamRecord where
  name : Option String
  value : Option String
deriving DecidableEq

/-- The reduce building provisioningParameters: records with a truthy
Name field are assigned into the accumulator object; a later record
with the same name overwrites an earlier one (the later assignment is
found first because it is consed at the head). -/
def buildParams (recs : List ParamRecord) : List (String × Option String) :=
  recs.foldl
    (fun acc r =>
      match r.name with
      | some n => if n = "" then acc else (n, r.value) :: acc
      | none => acc)
    []

/-- Property read on the provisioningParameters object. -/
def getParam (m : List (String × Option String)) (k : String) : Option String :=
  match m.find? (fun p => p.1 = k) with
  | some p => p.2
  | none => none

/-- An OpportunityLineItem sObject as the worker probes it:
oli.fields.Id, the top-level record id, and the three product fields
tried in order by the productLabel fallback chain. -/
structure OliRecord where
  fieldsId : Option String
  sobjId : Option String
  product2FieldsName : Option String
  product2Name : Option String
  product2Id : Option String
deriving DecidableEq

/-- The productLabel fallback chain of provisionServices.js, ending in
the literal default Service. -/
def productLabelOf (oli : OliRecord) : String :=
  jsOrDefault (jsOr (jsOr oli.product2FieldsName oli.product2Name) oli.product2Id) "Service"

/-- An Opportunity sObject as the worker probes it: opp.Id and opp.id
from the fields object, and the nested line-item subquery result
(none when subQueryResults or its records property is missing, in which
case the loop continues to the next opportunity). -/
structure OppRecord where
  fieldsId : Option String
  fieldsIdLc : Option String
  lineItems : Option (List OliRecord)
deriving DecidableEq

/-- One page returned by dataApi.query or dataApi.queryMore. -/
structure QueryPage where
  records : List OppRecord
  done : Bool
  nextRecordsUrl : Option String
deriving DecidableEq

/-- The pagination loop of queryAll: the records of the current page
are collected, and while the result is not done and has a truthy
nextRecordsUrl the next page is fetched with queryMore. The list
argument holds the pages the data source still has; if the loop asks
for a page beyond them, queryMore fails and queryAll rethrows. -/
def queryAllFrom : QueryPage → List QueryPage → Except String (List OppRecord)
  | p, [] =>
    if p.done = false ∧ truthyS p.nextRecordsUrl = true then
      .error "queryMore failed"
    else
      .ok p.records
  | p, q :: qs =>
    if p.done = false ∧ truthyS p.nextRecordsUrl = true then
      (queryAllFrom q qs).map (fun tl => p.records ++ tl)
    else
      .ok p.records

/-- The result object of mockProvisionCall. -/
structure ServiceResult where
  serviceId : String
  opportunityId : Option String
  lineItemId : Option String
  productReference : String
  status : String
  message : String
deriving DecidableEq

/-- The service identifier template literal of mockProvisionCall. -/
def mkServiceId (jobId : String) (counter : Nat) : String :=
  "svc-" ++ jobId ++ "-" ++ toString counter

/-- mockProvisionCall: reads the three tuning parameters with their
built-in defaults (Standard, US, General) and returns a ServiceResult
with status Provisioned. The ten second delay and the formatted current
time are irrelevant to the result except for the timestamp string,
which is passed in. -/
def mockProvisionCall (jobId : String) (opportunityId lineItemId : Option String)
    (productLabel : String) (counter : Nat)
    (params : List (String × Option String)) (timestamp : String) : ServiceResult :=
  let tier := jsOrDefault (getParam params "DefaultTier") "Standard"
  let region := jsOrDefault (getParam params "Region") "US"
  let compliance := jsOrDefault (getParam params "Compliance") "General"
  { serviceId := mkServiceId jobId counter
  , opportunityId := opportunityId
  , lineItemId := lineItemId
  , productReference := productLabel
  , status := "Provisioned"
  , message := "Provisioned service for product " ++ productLabel ++ " at "
      ++ timestamp ++ " UTC (" ++ tier ++ ", " ++ region
      ++ ", Compliance: " ++ compliance ++ ")" }

/-- Severity of a log call. -/
inductive LogLevel where
  | info
  | warn
  | error
deriving DecidableEq

/-- One logger call: the severity, the jobId property of the structured
merge object when one is passed, and the message text. -/
structure LogEntry where
  level : LogLevel
  objJobId : Option String
  text : String
deriving DecidableEq

/-- The inner for loop over lineItemsResult.records: the counter is
incremented before each mockProvisionCall, an info line is logged per
item, and the result is pushed onto services. Returns the final counter
value, the results pushed, and the log lines, in order. -/
def provisionLineItems (jobId timestamp : String)
    (params : List (String × Option String)) (oppId : Option String) :
    Nat → List OliRecord → Nat × List ServiceResult × List LogEntry
  | c, [] => (c, [], [])
  | c, oli :: rest =>
    let lineItemId := jsOr oli.fieldsId oli.sobjId
    let productLabel := productLabelOf oli
    let r := mockProvisionCall jobId oppId lineItemId productLabel (c + 1) params timestamp
    let entry : LogEntry :=
      { level := .info, objJobId := some jobId
      , text := "Provisioned mock service for opportunity line item." }
    let res := provisionLineItems jobId timestamp params oppId (c + 1) rest
    (res.1, r :: res.2.1, entry :: res.2.2)

/-- The outer for loop over the fetched opportunities: an opportunity
whose line-item subquery result is missing is skipped (continue), the
others run the inner loop with the shared counter. -/
def provisionOpps (jobId timestamp : String)
    (params : List (String × Option String)) :
    Nat → List OppRecord → Nat × List ServiceResult × List LogEntry
  | c, [] => (c, [], [])
  | c, opp :: rest =>
    match opp.lineItems with
    | none => provisionOpps jobId timestamp params c rest
    | some olis =>
      let oppId := jsOr opp.fieldsId opp.fieldsIdLc
      let inner := provisionLineItems jobId timestamp params oppId c olis
      let outer := provisionOpps jobId timestamp params inner.1 rest
      (outer.1, inner.2.1 ++ outer.2.1, inner.2.2 ++ outer.2.2)

/-- The summary object built after the loop. -/
structure JobSummary where
  total : Nat
  succeeded : Nat
  failed : Nat
deriving DecidableEq

/-- The callbackResults object serialized into the callback POST body. -/
structure CallbackPayload where
  jobId : String
  opportunityIds : List JVal
  services : List ServiceResult
  summary : JobSummary
  status : String
  errors : List String
deriving DecidableEq

/-- The external world as one run of provisionServices observes it:
the arguments the handler passed, whether client.context.org.dataApi is
present, the outcome of the custom-metadata query, the pages the
Opportunity query can serve (an error means the initial query throws),
whether the callback request succeeds, and the formatted timestamp. -/
structure WorkerEnv where
  jobId : String
  opportunityIds : Option (List JVal)
  callbackUrl : Option String
  hasDataApi : Bool
  paramQuery : Except String (List ParamRecord)
  oppQuery : Except String (QueryPage × List QueryPage)
  callbackOk : Bool
  timestamp : String

/-- Everything one run of provisionServices leaves behind: the log
lines in order, the ServiceResults produced, the summary if one was
built, how many callback deliveries were attempted, whether one
succeeded, and the payload of the attempted delivery. -/
structure WorkerTrace where
  logs : List LogEntry
  services : List ServiceResult
  summaryMade : Option JobSummary
  callbackAttempts : Nat
  callbackDelivered : Bool
  callbackPayload : Option CallbackPayload
deriving DecidableEq

/-- The log line of the outer catch block of provisionServices. -/
def outerCatchLog (jobId : String) : LogEntry :=
  { level := .error, objJobId := none
  , text := "Error executing provisioning batch for Job ID: " ++ jobId }

/-- The log line of the catch block inside queryAll (the merge object
carries err and soql, not the job id). -/
def queryAllErrorLog : LogEntry :=
  { level := .error, objJobId := none, text := "Error during queryAll execution" }

/-- A trace for a run that ended before any service was produced and
before any callback was attempted. -/
def abortedTrace (logs : List LogEntry) : WorkerTrace :=
  { logs := logs, services := [], summaryMade := none
  , callbackAttempts := 0, callbackDelivered := false, callbackPayload := none }

/-- provisionServices from provisionServices.js, with the try and catch
control flow inlined: each await that can throw is a match whose error
arm jumps to the code of the reached catch block. -/
def provisionServicesRun (env : WorkerEnv) : WorkerTrace :=
  match env.opportunityIds with
  | none =>
    abortedTrace
      [{ level := .warn, objJobId := none
       , text := "No opportunityIds provided for Job ID: " ++ env.jobId }]
  | some ids =>
    if ids.length = 0 then
      abortedTrace
        [{ level := .warn, objJobId := none
         , text := "No opportunityIds provided for Job ID: " ++ env.jobId }]
    else
      let logs1 : List LogEntry :=
        [{ level := .info, objJobId := none
         , text := "Processing provisioning job " ++ env.jobId ++ " for "
             ++ toString ids.length ++ " opportunity IDs" }]
      if env.hasDataApi = false then
        abortedTrace (logs1 ++
          [{ level := .error, objJobId := none
           , text := "Failed to get valid Salesforce context for provisioning job "
               ++ env.jobId }])
      else
        match env.paramQuery with
        | .error _ => abortedTrace (logs1 ++ [outerCatchLog env.jobId])
        | .ok paramRecs =>
          let params := buildParams paramRecs
          let _idList := buildIdList ids
          match env.oppQuery with
          | .error _ =>
            abortedTrace (logs1 ++ [queryAllErrorLog, outerCatchLog env.jobId])
          | .ok (p, rest) =>
            match queryAllFrom p rest with
            | .error _ =>
              abortedTrace (logs1 ++ [queryAllErrorLog, outerCatchLog env.jobId])
            | .ok opportunities =>
              let logs2 := logs1 ++
                [{ level := .info, objJobId := none
                 , text := "Processing " ++ toString opportunities.length
                     ++ " Opportunities for provisioning" }]
              let run := provisionOpps env.jobId env.timestamp params 0 opportunities
              let services := run.2.1
              let logs3 := logs2 ++ run.2.2
              if services.length = 0 then
                abortedTrace (logs3 ++
                  [{ level := .warn, objJobId := none
                   , text := "No services were generated for provisioning job "
                       ++ env.jobId ++ "." }])
              else
                let summary : JobSummary :=
                  { total := services.length, succeeded := services.length, failed := 0 }
                let logs4 := logs3 ++
                  [{ level := .info, objJobId := none
                   , text := "Provisioning job " ++ env.jobId ++ " completed. "
                       ++ toString summary.succeeded ++ " services provisioned." }]
                if truthyS env.callbackUrl = false then
                  { logs := logs4 ++
                      [{ level := .warn, objJobId := none
                       , text := "No callbackUrl provided for provisioning job "
                           ++ env.jobId ++ ", skipping callback execution" }]
                  , services := services, summaryMade := some summary
                  , callbackAttempts := 0, callbackDelivered := false
                  , callbackPayload := none }
                else
                  let payload : CallbackPayload :=
                    { jobId := env.jobId, opportunityIds := ids, services := services
                    , summary := summary, status := "completed", errors := [] }
                  if env.callbackOk then
                    { logs := logs4 ++
                        [{ level := .info, objJobId := none
                         , text := "Provisioning callback executed successfully for Job ID: "
                             ++ env.jobId ++ ". Services returned: "
                             ++ toString services.length }]
                    , services := services, summaryMade := some summary
                    , callbackAttempts := 1, callbackDelivered := true
                    , callbackPayload := some payload }
                  else
                    { logs := logs4 ++
                        [{ level := .error, objJobId := some env.jobId
                         , text := "Failed to execute provisioning callback for Job ID: "
                             ++ env.jobId }]
                    , services := services, summaryMade := some summary
                    , callbackAttempts := 1, callbackDelivered := false
                    , callbackPayload := some payload }

/-! ## Helper definitions for stating and proving the claims -/

/-- A well-formed page chain: every page but the last reports more data
(done is false and nextRecordsUrl is truthy) and the last reports
completion. This is the hypothesis of the pagination claim. -/
def chainOk : QueryPage → List QueryPage → Bool
  | p, [] => p.done || !truthyS p.nextRecordsUrl
  | p, q :: qs => (!p.done && truthyS p.nextRecordsUrl) && chainOk q qs

/-- The opportunities the worker ends up iterating, if the run reaches
the loop: none when the dataApi is missing or either query fails. -/
def fetchedOpps (env : WorkerEnv) : Option (List OppRecord) :=
  if env.hasDataApi = false then none
  else
    match env.paramQuery with
    | .error _ => none
    | .ok _ =>
      match env.oppQuery with
      | .error _ => none
      | .ok (p, rest) => (queryAllFrom p rest).toOption

/-- Number of line items the nested loop visits: line items of
opportunities whose subquery result is present. -/
def childCount : List OppRecord → Nat
  | [] => 0
  | opp :: rest =>
    (match opp.lineItems with
     | none => 0
     | some olis => olis.length) + childCount rest

/-- Decimal digit list of a natural number, most significant first.
Reference function used to prove that the counter-to-string conversion
inside mkServiceId is injective. -/
def decimalDigits (n : Nat) : List Char :=
  if n < 10 then [Nat.digitChar n]
  else decimalDigits (n / 10) ++ [Nat.digitChar (n % 10)]
decreasing_by omega

/-- Value of a decimal digit list, used to invert decimalDigits. -/
def decimalVal (l : List Char) : Nat :=
  l.foldl (fun a c => 10 * a + (c.toNat - 48)) 0

/-! ## Concrete fixtures used by witnesses and counterexamples -/

/-- A line item whose product name is present. -/
def oliProdA : OliRecord :=
  { fieldsId := some "OLI1", sobjId := none
  , product2FieldsName := some "ProdA", product2Name := none, product2Id := none }

/-- A line item with no product information at all. -/
def oliBare : OliRecord :=
  { fieldsId := some "OLI2", sobjId := none
  , product2FieldsName := none, product2Name := none, product2Id := none }

/-- An opportunity with two line items. -/
def oppTwoItems : OppRecord :=
  { fieldsId := some "OPP1", fieldsIdLc := none, lineItems := some [oliProdA, oliBare] }

/-- An opportunity whose line-item subquery returned zero records. -/
def oppNoItems : OppRecord :=
  { fieldsId := some "OPP2", fieldsIdLc := none, lineItems := some [] }

/-- A single final page holding the two-line-item opportunity. -/
def pageFinal : QueryPage :=
  { records := [oppTwoItems], done := true, nextRecordsUrl := none }

/-- An environment in which everything succeeds: one valid id, one
opportunity with two line items, a callback URL, callback delivery ok. -/
def envOk : WorkerEnv :=
  { jobId := "J1", opportunityIds := some [.jstr "001ABCDEFGHIJKL"]
  , callbackUrl := some "https://example.test/cb", hasDataApi := true
  , paramQuery := .ok [], oppQuery := .ok (pageFinal, [])
  , callbackOk := true, timestamp := "TS" }

/-- envOk with an empty opportunityIds array. -/
def envEmptyIds : WorkerEnv := { envOk with opportunityIds := some [] }

/-- envOk with a failing ProvisioningParameter custom-metadata query. -/
def envParamFail : WorkerEnv := { envOk with paramQuery := .error "mdt query failed" }

/-- envOk with a failing callback delivery. -/
def envCallbackFail : WorkerEnv := { envOk with callbackOk := false }

/-- envOk but every fetched opportunity has zero line items. -/
def envNoChildren : WorkerEnv :=
  { envOk with oppQuery := .ok ({ records := [oppNoItems], done := true, nextRecordsUrl := none }, []) }

/-- First page of a three-page chain. -/
def pageA : QueryPage :=
  { records := [oppTwoItems], done := false, nextRecordsUrl := some "url1" }

/-- Middle page of a three-page chain, with no records of its own. -/
def pageB : QueryPage :=
  { records := [], done := false, nextRecordsUrl := some "url2" }

/-- Last page of a three-page chain. -/
def pageC : QueryPage :=
  { records := [oppNoItems, oppTwoItems], done := true, nextRecordsUrl := none }

/-! ## Lemmas: decimal representation and injectivity of mkServiceId -/

theorem decimalDigits_lt {n : Nat} (h : n < 10) : decimalDigits n = [Nat.digitChar n] := by
  rw [decimalDigits]
  simp [h]

theorem decimalDigits_ge {n : Nat} (h : ¬ n < 10) :
    decimalDigits n = decimalDigits (n / 10) ++ [Nat.digitChar (n % 10)] := by
  rw [decimalDigits]
  simp [h]

theorem toDigitsCore_eq_decimalDigits (n : Nat) :
    ∀ (f : Nat) (l : List Char), n < f →
      Nat.toDigitsCore 10 f n l = decimalDigits n ++ l := by
  induction n using Nat.strong_induction_on with
  | _ n ih =>
    intro f l hf
    match f, hf with
    | f + 1, _ =>
      simp only [Nat.toDigitsCore]
      by_cases h : n / 10 = 0
      · rw [if_pos h, decimalDigits_lt (by omega)]
        have hmod : n % 10 = n := by omega
        rw [hmod]
        rfl
      · rw [if_neg h, decimalDigits_ge (n := n) (by omega),
          ih (n / 10) (by omega) f (Nat.digitChar (n % 10) :: l) (by omega)]
        simp

theorem natRepr_eq_decimalDigits (n : Nat) : Nat.repr n = (decimalDigits n).asString := by
  show (Nat.toDigits 10 n).asString = _
  rw [Nat.toDigits, toDigitsCore_eq_decimalDigits n (n + 1) [] (Nat.lt_succ_self n),
    List.append_nil]

theorem digitChar_toNat : ∀ d : Nat, d < 10 → (Nat.digitChar d).toNat = d + 48 := by decide

theorem decimalVal_decimalDigits (n : Nat) : decimalVal (decimalDigits n) = n := by
  induction n using Nat.strong_induction_on with
  | _ n ih =>
    by_cases h : n < 10
    · rw [decimalDigits_lt h]
      simp [decimalVal, digitChar_toNat n h]
    · have ihm := ih (n / 10) (by omega)
      rw [decimalDigits_ge h]
      simp only [decimalVal] at ihm ⊢
      rw [List.foldl_append, ihm]
      simp only [List.foldl]
      rw [digitChar_toNat (n % 10) (by omega)]
      omega

theorem natRepr_injective {m n : Nat} (h : Nat.repr m = Nat.repr n) : m = n := by
  rw [natRepr_eq_decimalDigits, natRepr_eq_decimalDigits] at h
  have hd : decimalDigits m = decimalDigits n := congrArg String.data h
  calc m = decimalVal (decimalDigits m) := (decimalVal_decimalDigits m).symm
    _ = decimalVal (decimalDigits n) := by rw [hd]
    _ = n := decimalVal_decimalDigits n

theorem mkServiceId_injective (jobId : String) {a b : Nat}
    (h : mkServiceId jobId a = mkServiceId jobId b) : a = b := by
  have hd := congrArg String.data h
  simp only [mkServiceId, String.data_append, List.append_cancel_left_eq] at hd
  exact natRepr_injective (String.ext hd)

/-! ## Lemmas: the provisioning loops -/

theorem provisionLineItems_spec (jobId ts : String) (params : List (String × Option String))
    (oppId : Option String) :
    ∀ (olis : List OliRecord) (c : Nat),
      (provisionLineItems jobId ts params oppId c olis).1 = c + olis.length
      ∧ (provisionLineItems jobId ts params oppId c olis).2.1.map (·.serviceId)
          = (List.range' (c + 1) olis.length).map (mkServiceId jobId)
      ∧ ∀ r ∈ (provisionLineItems jobId ts params oppId c olis).2.1,
          r.status = "Provisioned" := by
  intro olis
  induction olis with
  | nil =>
    intro c
    simp [provisionLineItems]
  | cons oli rest ih =>
    intro c
    obtain ⟨h1, h2, h3⟩ := ih (c + 1)
    refine ⟨?_, ?_, ?_⟩
    · simp only [provisionLineItems, h1, List.length_cons]
      omega
    · simp only [provisionLineItems, List.map_cons, h2, List.range'_succ]
      rfl
    · intro r hr
      simp only [provisionLineItems, List.mem_cons] at hr
      rcases hr with h | h
      · subst h; rfl
      · exact h3 r h

theorem provisionOpps_spec (jobId ts : String) (params : List (String × Option String)) :
    ∀ (opps : List OppRecord) (c : Nat),
      (provisionOpps jobId ts params c opps).1 = c + childCount opps
      ∧ (provisionOpps jobId ts params c opps).2.1.map (·.serviceId)
          = (List.range' (c + 1) (childCount opps)).map (mkServiceId jobId)
      ∧ ∀ r ∈ (provisionOpps jobId ts params c opps).2.1,
          r.status = "Provisioned" := by
  intro opps
  induction opps with
  | nil =>
    intro c
    simp [provisionOpps, childCount]
  | cons opp rest ih =>
    intro c
    cases hLI : opp.lineItems with
    | none =>
      obtain ⟨h1, h2, h3⟩ := ih c
      refine ⟨?_, ?_, ?_⟩
      · simp [provisionOpps, hLI, h1, childCount]
      · simp [provisionOpps, hLI, h2, childCount]
      · intro r hr
        simp only [provisionOpps, hLI] at hr
        exact h3 r hr
    | some olis =>
      obtain ⟨g1, g2, g3⟩ :=
        provisionLineItems_spec jobId ts params (jsOr opp.fieldsId opp.fieldsIdLc) olis c
      obtain ⟨h1, h2, h3⟩ := ih (c + olis.length)
      refine ⟨?_, ?_, ?_⟩
      · simp only [provisionOpps, hLI, g1, h1, childCount]
        omega
      · simp only [provisionOpps, hLI, List.map_append, g1, g2, h2, childCount]
        have hs : c + olis.length + 1 = (c + 1) + olis.length := by omega
        rw [hs, ← List.map_append, List.range'_append_1,
          Nat.add_comm (childCount rest) olis.length]
      · intro r hr
        simp only [provisionOpps, hLI, List.mem_append, g1] at hr
        rcases hr with h | h
        · exact g3 r h
        · exact h3 r h

/-- Case analysis of a worker run: either the run ended before building
a summary (guards, missing dataApi, a failed query, or zero services)
with nothing attempted, or the loop produced a nonempty batch and the
trace carries its summary, with the callback either skipped or
attempted exactly once with the completed payload. -/
theorem run_cases (env : WorkerEnv) :
    ((provisionServicesRun env).services = []
      ∧ (provisionServicesRun env).summaryMade = none
      ∧ (provisionServicesRun env).callbackAttempts = 0
      ∧ (provisionServicesRun env).callbackPayload = none)
    ∨ (∃ ids params opps,
        env.opportunityIds = some ids
        ∧ (provisionServicesRun env).services
            = (provisionOpps env.jobId env.timestamp params 0 opps).2.1
        ∧ (provisionServicesRun env).services.length ≠ 0
        ∧ (provisionServicesRun env).summaryMade
            = some { total := (provisionServicesRun env).services.length
                   , succeeded := (provisionServicesRun env).services.length
                   , failed := 0 }
        ∧ ((provisionServicesRun env).callbackAttempts = 0
              ∧ (provisionServicesRun env).callbackPayload = none
           ∨ (provisionServicesRun env).callbackAttempts = 1
              ∧ (provisionServicesRun env).callbackPayload
                  = some { jobId := env.jobId, opportunityIds := ids
                         , services := (provisionServicesRun env).services
                         , summary :=
                             { total := (provisionServicesRun env).services.length
                             , succeeded := (provisionServicesRun env).services.length
                             , failed := 0 }
                         , status := "completed", errors := [] })) := by
  obtain ⟨jid, oppIds, cb, api, pq, oq, cbok, ts⟩ := env
  simp only [provisionServicesRun]
  split
  · left; simp [abortedTrace]
  · split
    · left; simp [abortedTrace]
    · split
      · left; simp [abortedTrace]
      · split
        · left; simp [abortedTrace]
        · split
          · left; simp [abortedTrace]
          · split
            · left; simp [abortedTrace]
            · split
              · left; simp [abortedTrace]
              · rename_i hlen
                split
                · right
                  exact ⟨_, _, _, rfl, rfl, by simpa using hlen, by simp, Or.inl (by simp)⟩
                · split
                  · right
                    exact ⟨_, _, _, rfl, rfl, by simpa using hlen, by simp, Or.inr (by simp)⟩
                  · right
                    exact ⟨_, _, _, rfl, rfl, by simpa using hlen, by simp, Or.inr (by simp)⟩

/-! ## Claim theorems -/

/-- Claim C2 (code bug): sanitizeSalesforceId does not accept exactly
the 15- and 18-character alphanumeric strings: its regex quantifier
spans 15 to 18, so a 16-character alphanumeric id passes the check,
contradicting the function's own doc comment, and such an id is not
excluded from the constructed query id list. -/
theorem sanitize_accepts_sixteen_char_id :
    sanitizeSalesforceId (.jstr "A234567890123456") = some "A234567890123456"
    ∧ "A234567890123456".length = 16
    ∧ buildIdList [.jstr "A234567890123456"] = "\u0027A234567890123456\u0027" :=
  ⟨rfl, rfl, rfl⟩

/-- Claim C5: when every page but the last reports more data and the
last reports completion, queryAll returns the concatenation of the
records of every page in page order — never just a partial first
page. -/
theorem queryAll_collects_every_page (p : QueryPage) (rest : List QueryPage)
    (h : chainOk p rest = true) :
    queryAllFrom p rest = .ok (((p :: rest).map (fun q => q.records)).join) := by
  induction rest generalizing p with
  | nil =>
    simp only [queryAllFrom]
    rw [if_neg]
    · simp
    · rintro ⟨hd, ht⟩
      simp only [chainOk, hd, ht] at h
      simp at h
  | cons q qs ih =>
    simp only [chainOk, Bool.and_eq_true] at h
    obtain ⟨⟨hd, ht⟩, hchain⟩ := h
    have hdone : p.done = false := by
      cases hpd : p.done
      · rfl
      · rw [hpd] at hd; cases hd
    simp only [queryAllFrom]
    rw [if_pos ⟨hdone, ht⟩, ih q hchain]
    rfl

/-- Witness for C5: a three-page chain is concatenated in order. -/
theorem queryAll_collects_every_page_witness :
    chainOk pageA [pageB, pageC] = true
    ∧ queryAllFrom pageA [pageB, pageC]
        = .ok (((pageA :: [pageB, pageC]).map (fun q => q.records)).join) :=
  ⟨rfl, queryAll_collects_every_page pageA [pageB, pageC] rfl⟩

/-- Claim C6: every generated JobSummary satisfies total equal to the
number of services and succeeded plus failed equal to total, both as
built by the worker and as embedded in any callback payload. -/
theorem summary_totals_consistent (env : WorkerEnv) :
    (∀ s, (provisionServicesRun env).summaryMade = some s →
      s.total = (provisionServicesRun env).services.length
      ∧ s.succeeded + s.failed = s.total)
    ∧ (∀ p, (provisionServicesRun env).callbackPayload = some p →
      p.summary.total = p.services.length
      ∧ p.summary.succeeded + p.summary.failed = p.summary.total) := by
  rcases run_cases env with ⟨_, hsm, _, hcp⟩ | ⟨ids, params, opps, _, _, _, hsm, hrest⟩
  · constructor
    · intro s hs; rw [hsm] at hs; cases hs
    · intro p hp; rw [hcp] at hp; cases hp
  · constructor
    · intro s hs
      rw [hsm] at hs
      cases hs
      exact ⟨rfl, by simp⟩
    · intro p hp
      rcases hrest with ⟨_, hcp⟩ | ⟨_, hcp⟩
      · rw [hcp] at hp; cases hp
      · rw [hcp] at hp
        cases hp
        exact ⟨rfl, by simp⟩

/-- Witness for C6: the all-success run builds the summary 2, 2, 0 for
its two services. -/
theorem summary_totals_consistent_witness :
    (provisionServicesRun envOk).summaryMade
      = some { total := 2, succeeded := 2, failed := 0 }
    ∧ (2 = (provisionServicesRun envOk).services.length ∧ 2 + 0 = 2) :=
  ⟨rfl, (summary_totals_consistent envOk).1 { total := 2, succeeded := 2, failed := 0 } rfl⟩

/-- Claim C9: within every job the shared counter numbers the
ServiceResults consecutively from one in processing order (hence the
sequence numbers are strictly increasing), and the serviceIds derived
from the job id and the counter are pairwise distinct. -/
theorem serviceIds_sequential_unique (env : WorkerEnv) :
    (provisionServicesRun env).services.map (fun r => r.serviceId)
      = (List.range' 1 (provisionServicesRun env).services.length).map
          (mkServiceId env.jobId)
    ∧ ((provisionServicesRun env).services.map (fun r => r.serviceId)).Nodup := by
  have key :
      (provisionServicesRun env).services.map (fun r => r.serviceId)
        = (List.range' 1 (provisionServicesRun env).services.length).map
            (mkServiceId env.jobId) := by
    rcases run_cases env with ⟨hsv, _, _, _⟩ | ⟨ids, params, opps, _, hsv, _, _, _⟩
    · rw [hsv]; rfl
    · obtain ⟨h1, h2, h3⟩ := provisionOpps_spec env.jobId env.timestamp params opps 0
      have hlen2 : (provisionServicesRun env).services.length = childCount opps := by
        rw [hsv]
        have := congrArg List.length h2
        simpa using this
      rw [hlen2, hsv]
      simpa using h2
  refine ⟨key, ?_⟩
  rw [key]
  exact List.Nodup.map (fun a b h => mkServiceId_injective env.jobId h)
    (List.nodup_range' _ _)

/-- Claim C10: every produced ServiceResult has status Provisioned and
every constructed callback payload has status completed, no errors and
zero failed in its summary; Failed, partial and failed shapes are never
produced. -/
theorem only_success_outcomes (env : WorkerEnv) :
    (∀ r ∈ (provisionServicesRun env).services, r.status = "Provisioned")
    ∧ (∀ p, (provisionServicesRun env).callbackPayload = some p →
        p.status = "completed" ∧ p.errors = [] ∧ p.summary.failed = 0
        ∧ ∀ r ∈ p.services, r.status = "Provisioned") := by
  rcases run_cases env with ⟨hsv, _, _, hcp⟩ | ⟨ids, params, opps, _, hsv, _, _, hrest⟩
  · constructor
    · intro r hr; rw [hsv] at hr; cases hr
    · intro p hp; rw [hcp] at hp; cases hp
  · have hst : ∀ r ∈ (provisionServicesRun env).services, r.status = "Provisioned" := by
      rw [hsv]
      exact (provisionOpps_spec env.jobId env.timestamp params opps 0).2.2
    refine ⟨hst, ?_⟩
    intro p hp
    rcases hrest with ⟨_, hcp⟩ | ⟨_, hcp⟩
    · rw [hcp] at hp; cases hp
    · rw [hcp] at hp
      cases hp
      exact ⟨rfl, rfl, rfl, hst⟩

/-- Witness for C10: the all-success run attempts its callback with the
completed payload, whose services all have status Provisioned. -/
theorem only_success_outcomes_witness :
    (provisionServicesRun envOk).callbackPayload
      = some { jobId := "J1", opportunityIds := [.jstr "001ABCDEFGHIJKL"]
             , services := (provisionServicesRun envOk).services
             , summary := { total := 2, succeeded := 2, failed := 0 }
             , status := "completed", errors := [] }
    ∧ ("completed" = "completed" ∧ ([] : List String) = [] ∧ 0 = 0
        ∧ ∀ r ∈ (provisionServicesRun envOk).services, r.status = "Provisioned") := by
  have hp : (provisionServicesRun envOk).callbackPayload
      = some { jobId := "J1", opportunityIds := [.jstr "001ABCDEFGHIJKL"]
             , services := (provisionServicesRun envOk).services
             , summary := { total := 2, succeeded := 2, failed := 0 }
             , status := "completed", errors := [] } := rfl
  exact ⟨hp, by simpa using (only_success_outcomes envOk).2 _ hp⟩

/-- Counterexample for C1: a request whose opportunityIds is the empty
array is not rejected with a 4xx — the endpoint replies 201, a job id
is minted and returned, and a worker task is scheduled. -/
theorem empty_ids_accepted_counterexample :
    handleProvisionServices "job-1"
        { opportunityIds := some [], callbackUrl := none } true
      = { status := 201, returnedJobId := some "job-1"
        , jobIdMinted := true, workerScheduled := true } := rfl

/-- Claim C1 as amended: a request missing opportunityIds (or carrying
a non-array value) fails schema validation with 400 before any job id
is minted or any worker scheduled; a request carrying an empty array is
accepted with 201, a job id is minted and a worker is scheduled, but
that worker terminates at its guard immediately: one warning log, no
services, no callback attempt. -/
theorem missing_or_empty_ids_behavior (jobId : String) (r : SubmitRequest) (ctx : Bool)
    (env : WorkerEnv) :
    (r.opportunityIds = none →
      handleProvisionServices jobId r ctx
        = { status := 400, returnedJobId := none
          , jobIdMinted := false, workerScheduled := false })
    ∧ (r.opportunityIds = some [] → ctx = true →
      handleProvisionServices jobId r ctx
        = { status := 201, returnedJobId := some jobId
          , jobIdMinted := true, workerScheduled := true })
    ∧ (env.opportunityIds = some [] →
      (provisionServicesRun env).services = []
      ∧ (provisionServicesRun env).callbackAttempts = 0
      ∧ (provisionServicesRun env).logs
          = [{ level := .warn, objJobId := none
             , text := "No opportunityIds provided for Job ID: " ++ env.jobId }]) := by
  refine ⟨?_, ?_, ?_⟩
  · intro h
    simp [handleProvisionServices, validateBody, h]
  · intro h hc
    simp [handleProvisionServices, validateBody, h, hc]
  · intro h
    obtain ⟨jid, oppIds, cb, api, pq, oq, cbok, ts⟩ := env
    simp only at h
    subst h
    simp [provisionServicesRun, abortedTrace]

/-- Witness for the amended C1. -/
theorem missing_or_empty_ids_behavior_witness :
    handleProvisionServices "j1" { opportunityIds := none, callbackUrl := none } true
      = { status := 400, returnedJobId := none
        , jobIdMinted := false, workerScheduled := false }
    ∧ handleProvisionServices "j1" { opportunityIds := some [], callbackUrl := none } true
      = { status := 201, returnedJobId := some "j1"
        , jobIdMinted := true, workerScheduled := true }
    ∧ (provisionServicesRun envEmptyIds).callbackAttempts = 0 :=
  ⟨(missing_or_empty_ids_behavior "j1"
      { opportunityIds := none, callbackUrl := none } true envEmptyIds).1 rfl,
   (missing_or_empty_ids_behavior "j1"
      { opportunityIds := some [], callbackUrl := none } true envEmptyIds).2.1 rfl rfl,
   ((missing_or_empty_ids_behavior "j1"
      { opportunityIds := some [], callbackUrl := none } true envEmptyIds).2.2 rfl).2.1⟩

/-- Counterexample for C4: on a valid body with no Salesforce context
the endpoint does reply 401 with no worker scheduled, but a job id has
already been minted by the handler before the context check. -/
theorem no_context_counterexample :
    handleProvisionServices "job-4"
        { opportunityIds := some [.jstr "001ABCDEFGHIJKL"], callbackUrl := none } false
      = { status := 401, returnedJobId := none
        , jobIdMinted := true, workerScheduled := false } := rfl

/-- Claim C4 as amended: without an authenticated context the endpoint
responds 401 synchronously, returns no job id and schedules no worker;
a job id is however generated (and discarded) before the check. -/
theorem no_context_unauthorized (jobId : String) (r : SubmitRequest)
    (h : validateBody r = true) :
    handleProvisionServices jobId r false
      = { status := 401, returnedJobId := none
        , jobIdMinted := true, workerScheduled := false } := by
  simp [handleProvisionServices, h]

/-- Witness for the amended C4. -/
theorem no_context_unauthorized_witness :
    handleProvisionServices "j4"
        { opportunityIds := some [.jstr "001ABCDEFGHIJKL"], callbackUrl := none } false
      = { status := 401, returnedJobId := none
        , jobIdMinted := true, workerScheduled := false } :=
  no_context_unauthorized "j4"
    { opportunityIds := some [.jstr "001ABCDEFGHIJKL"], callbackUrl := none } rfl

/-- Claim C3 (code bug): the custom-metadata parameter query runs
inside the worker's try block, so its failure is fatal to the job — the
outer catch logs and abandons it with no ServiceResults and no callback
— even though value-level defaults (Standard, US, General) exist in
mockProvisionCall and the environment could otherwise complete the job
(envParamFail is envOk except for the failing parameter query). -/
theorem param_fetch_failure_aborts_job :
    (provisionServicesRun envParamFail).services = []
    ∧ (provisionServicesRun envParamFail).callbackAttempts = 0
    ∧ (provisionServicesRun envParamFail).callbackPayload = none
    ∧ (provisionServicesRun envParamFail).logs
        = [{ level := .info, objJobId := none
           , text := "Processing provisioning job J1 for 1 opportunity IDs" }
          , outerCatchLog "J1"]
    ∧ (provisionServicesRun envOk).callbackAttempts = 1
    ∧ (mockProvisionCall "J1" (some "OPP1") (some "OLI1") "ProdA" 1
        (buildParams []) "TS").message
      = "Provisioned service for product ProdA at TS UTC (Standard, US, Compliance: General)" :=
  ⟨rfl, rfl, rfl, rfl, rfl, rfl⟩

/-- Claim C7: a job that produces zero ServiceResults never attempts a
callback and constructs no payload, whatever callback address was
supplied; and when the record fetch itself succeeded, the worker logs
the no-services warning before terminating. -/
theorem zero_services_skips_callback (env : WorkerEnv) :
    ((provisionServicesRun env).services = [] →
      (provisionServicesRun env).callbackAttempts = 0
      ∧ (provisionServicesRun env).callbackPayload = none)
    ∧ (∀ ids opps, env.opportunityIds = some ids → ids.length ≠ 0 →
        fetchedOpps env = some opps →
        (provisionServicesRun env).services = [] →
        { level := LogLevel.warn, objJobId := none
        , text := "No services were generated for provisioning job "
            ++ env.jobId ++ "." } ∈ (provisionServicesRun env).logs) := by
  constructor
  · intro hsv
    rcases run_cases env with ⟨_, _, hca, hcp⟩ | ⟨ids, params, opps, _, _, hlen, _, _⟩
    · exact ⟨hca, hcp⟩
    · exact absurd (by rw [hsv]; rfl) hlen
  · intro ids opps hids hlen hf hsv
    obtain ⟨jid, oppIds, cb, api, pq, oq, cbok, ts⟩ := env
    simp only at hids
    subst hids
    cases api with
    | false => simp [fetchedOpps] at hf
    | true =>
      cases pq with
      | error e => simp [fetchedOpps] at hf
      | ok recs =>
        cases oq with
        | error e => simp [fetchedOpps] at hf
        | ok pr =>
          obtain ⟨page, rest⟩ := pr
          cases hq : queryAllFrom page rest with
          | error e => simp [fetchedOpps, hq, Except.toOption] at hf
          | ok opps2 =>
            simp [fetchedOpps, hq, Except.toOption] at hf
            subst hf
            by_cases hsz :
                (provisionOpps jid ts (buildParams recs) 0 opps2).2.1.length = 0
            · simp [provisionServicesRun, abortedTrace, hq, hlen, hsz]
            · exfalso
              by_cases hcb : truthyS cb = false
              · simp [provisionServicesRun, hq, hlen, hsz, hcb] at hsv
                exact hsz (by rw [hsv]; rfl)
              · cases cbok with
                | true =>
                  simp [provisionServicesRun, hq, hlen, hsz, hcb] at hsv
                  exact hsz (by rw [hsv]; rfl)
                | false =>
                  simp [provisionServicesRun, hq, hlen, hsz, hcb] at hsv
                  exact hsz (by rw [hsv]; rfl)

/-- Witness for C7: with one fetched opportunity carrying zero line
items and a callback address supplied, no callback is attempted and the
warning is logged. -/
theorem zero_services_skips_callback_witness :
    (provisionServicesRun envNoChildren).callbackAttempts = 0
    ∧ { level := LogLevel.warn, objJobId := none
      , text := "No services were generated for provisioning job "
          ++ envNoChildren.jobId ++ "." } ∈ (provisionServicesRun envNoChildren).logs :=
  ⟨((zero_services_skips_callback envNoChildren).1 rfl).1,
   (zero_services_skips_callback envNoChildren).2
     [.jstr "001ABCDEFGHIJKL"] [oppNoItems] rfl (by decide) rfl rfl⟩

/-- Claim C8: failures inside the worker are contained and logged, and
callback delivery is attempted at most once. The model of the worker is
a total function into a trace (every throw site is matched by the
reached catch block), so no failure propagates to any caller: at most
one delivery attempt ever happens; a failed delivery leaves an error
log carrying the job id in its merge object and is not retried; a
failed fetch phase leaves the outer-catch error log naming the job id
and prevents any callback attempt. -/
theorem worker_failures_contained (env : WorkerEnv) :
    (provisionServicesRun env).callbackAttempts ≤ 1
    ∧ (∀ p, (provisionServicesRun env).callbackPayload = some p →
        (provisionServicesRun env).callbackDelivered = false →
        (provisionServicesRun env).callbackAttempts = 1
        ∧ { level := LogLevel.error, objJobId := some env.jobId
          , text := "Failed to execute provisioning callback for Job ID: "
              ++ env.jobId } ∈ (provisionServicesRun env).logs)
    ∧ (∀ ids, env.opportunityIds = some ids → ids.length ≠ 0 →
        env.hasDataApi = true → fetchedOpps env = none →
        outerCatchLog env.jobId ∈ (provisionServicesRun env).logs
        ∧ (provisionServicesRun env).callbackAttempts = 0) := by
  refine ⟨?_, ?_, ?_⟩
  · rcases run_cases env with ⟨_, _, hca, _⟩ | ⟨ids, params, opps, _, _, _, _, hrest⟩
    · rw [hca]; omega
    · rcases hrest with ⟨hca, _⟩ | ⟨hca, _⟩ <;> rw [hca] <;> omega
  · intro p hp hnd
    obtain ⟨jid, oppIds, cb, api, pq, oq, cbok, ts⟩ := env
    cases oppIds with
    | none => simp [provisionServicesRun, abortedTrace] at hp
    | some ids =>
      by_cases hlen : ids.length = 0
      · simp [provisionServicesRun, abortedTrace, hlen] at hp
      · cases api with
        | false => simp [provisionServicesRun, abortedTrace, hlen] at hp
        | true =>
          cases pq with
          | error e => simp [provisionServicesRun, abortedTrace, hlen] at hp
          | ok recs =>
            cases oq with
            | error e => simp [provisionServicesRun, abortedTrace, hlen] at hp
            | ok pr =>
              obtain ⟨page, rest⟩ := pr
              cases hq : queryAllFrom page rest with
              | error e => simp [provisionServicesRun, abortedTrace, hlen, hq] at hp
              | ok opps =>
                by_cases hsz :
                    (provisionOpps jid ts (buildParams recs) 0 opps).2.1.length = 0
                · simp [provisionServicesRun, abortedTrace, hlen, hq, hsz] at hp
                · by_cases hcb : truthyS cb = false
                  · simp [provisionServicesRun, hlen, hq, hsz, hcb] at hp
                  · cases cbok with
                    | true => simp [provisionServicesRun, hlen, hq, hsz, hcb] at hnd
                    | false =>
                      constructor
                      · simp [provisionServicesRun, hlen, hq, hsz, hcb]
                      · simp [provisionServicesRun, hlen, hq, hsz, hcb]
  · intro ids hids hlen hapi hf
    obtain ⟨jid, oppIds, cb, api, pq, oq, cbok, ts⟩ := env
    simp only at hids hapi
    subst hids
    subst hapi
    cases pq with
    | error e =>
      constructor
      · simp [provisionServicesRun, abortedTrace, hlen]
      · simp [provisionServicesRun, abortedTrace, hlen]
    | ok recs =>
      cases oq with
      | error e =>
        constructor
        · simp [provisionServicesRun, abortedTrace, hlen]
        · simp [provisionServicesRun, abortedTrace, hlen]
      | ok pr =>
        obtain ⟨page, rest⟩ := pr
        cases hq : queryAllFrom page rest with
        | error e =>
          constructor
          · simp [provisionServicesRun, abortedTrace, hlen, hq]
          · simp [provisionServicesRun, abortedTrace, hlen, hq]
        | ok opps2 => simp [fetchedOpps, hq, Except.toOption] at hf

/-- Witness for C8: a run whose callback delivery fails attempts the
delivery exactly once and logs the failure with the job id. -/
theorem worker_failures_contained_witness :
    (provisionServicesRun envCallbackFail).callbackAttempts = 1
    ∧ { level := LogLevel.error, objJobId := some envCallbackFail.jobId
      , text := "Failed to execute provisioning callback for Job ID: "
          ++ envCallbackFail.jobId } ∈ (provisionServicesRun envCallbackFail).logs :=
  (worker_failures_contained envCallbackFail).2.1
    { jobId := "J1", opportunityIds := [.jstr "001ABCDEFGHIJKL"]
    , services := (provisionServicesRun envCallbackFail).services
    , summary := { total := 2, succeeded := 2, failed := 0 }
    , status := "completed", errors := [] } rfl rfl

end ApplinkCallout
